import Mathlib

/-!
Verification of the paspro/logger crate: a shallow embedding of
`src/levels.rs` and `src/logger.rs`, together with theorems settling the
specification's claims about the `LogLevel` enumeration and the `Logger`
component (construction, the `log` operation, and default construction).

I/O effects are made explicit: the file system is a map from paths to
optional contents, standard output is an accumulated string, process
aborts (Rust panics) are an explicit `Outcome` constructor, and every
`log` call additionally produces an event trace recording the order of
its side effects.
-/

/-- Logging levels, from the `LogLevel` enum in `src/levels.rs`. -/
inductive LogLevel where
  | Info
  | Debug
  | Warning
  | Error
deriving DecidableEq, Repr

/-- String rendering of a level, from `LogLevel::to_level_string` in
`src/levels.rs`: a match over the four variants. -/
def LogLevel.to_level_string : LogLevel → String
  | LogLevel.Info => "INFO"
  | LogLevel.Debug => "DEBUG"
  | LogLevel.Warning => "WARNING"
  | LogLevel.Error => "ERROR"

/-- Display rendering of a level, from the `std::fmt::Display`
implementation in `src/levels.rs`, which formats exactly
`self.to_level_string()`. -/
def LogLevel.displayString (l : LogLevel) : String :=
  l.to_level_string

/-- The `Logger` struct of `src/logger.rs`: the log-file path and the
termination-policy flag. -/
structure Logger where
  log_file : String
  terminate_on_error : Bool
deriving DecidableEq, Repr

/-- System state visible to the logger: the file system (path to
contents; `none` means the file does not exist) and the accumulated
standard-output stream. -/
structure SysState where
  files : String → Option String
  stdout : String

/-- Injected I/O faults for one `log` call: whether `write_all` and
`flush` on the opened file fail. Open failure is not a fault flag: it is
determined by the file's absence in the state. -/
structure IoFaults where
  writeFails : Bool
  flushFails : Bool
deriving DecidableEq, Repr

/-- Result of running a piece of Rust code: either a normal return or a
process abort (panic) carrying the diagnostic message. -/
inductive Outcome (α : Type) where
  | ok : α → Outcome α
  | panicked : String → Outcome α
deriving DecidableEq, Repr

/-- Whether an outcome is a process abort. -/
def Outcome.isPanicked {α : Type} : Outcome α → Bool
  | Outcome.ok _ => false
  | Outcome.panicked _ => true

/-- Observable side effects of a `log` call, in the order performed. -/
inductive Event where
  | consoleWrite : String → Event
  | fileOpen : String → Event
  | fileWrite : String → String → Event
  | fileFlush : String → Event
  | procAbort : String → Event
deriving DecidableEq, Repr

/-- Replace the contents of one file. -/
def SysState.setFile (s : SysState) (p v : String) : SysState :=
  { s with files := fun q => if q = p then some v else s.files q }

/-- Append a string to standard output. -/
def SysState.addStdout (s : SysState) (line : String) : SysState :=
  { s with stdout := s.stdout ++ line }

/-- `Logger::new` from `src/logger.rs`: normalize an empty path to
`"default.log"`, then `File::create` the file (truncate-create), which
succeeds exactly when the environment's `canCreate` predicate allows it;
on failure the process panics and the state is unchanged. -/
def Logger.new (log_file_path : String) (terminate_on_error : Bool)
    (canCreate : String → Bool) (s : SysState) : SysState × Outcome Logger :=
  let log_file := if log_file_path.isEmpty then "default.log" else log_file_path
  if canCreate log_file then
    (s.setFile log_file "", Outcome.ok { log_file := log_file, terminate_on_error := terminate_on_error })
  else
    (s, Outcome.panicked "Logger: I cannot create the log file")

/-- `Logger::log` from `src/logger.rs`. In source order: print the
formatted line to stdout; open the log file in append mode with
`create(false)` and `unwrap` (panic when the file does not exist);
`write_all` the same formatted line followed by a newline, with `expect`
(panic on an injected write fault); `flush`, with `expect` (panic on an
injected flush fault); then panic when the level is `Error` and
`terminate_on_error` holds; otherwise return `Ok(())`. The event trace
records the side effects actually performed, in order. -/
def Logger.log (l : Logger) (level : LogLevel) (message : String)
    (f : IoFaults) (s : SysState) :
    List Event × SysState × Outcome (Except String Unit) :=
  let consoleLine := "[" ++ level.displayString ++ "] " ++ message ++ "\n"
  let s1 := s.addStdout consoleLine
  match s.files l.log_file with
  | none =>
      ([Event.consoleWrite consoleLine], s1,
        Outcome.panicked "called Result::unwrap on an Err value")
  | some contents =>
      let msg := "[" ++ level.to_level_string ++ "] " ++ message ++ "\n"
      if f.writeFails then
        ([Event.consoleWrite consoleLine, Event.fileOpen l.log_file], s1,
          Outcome.panicked "Logger: I cannot write to the log file.")
      else
        let s2 := s1.setFile l.log_file (contents ++ msg)
        if f.flushFails then
          ([Event.consoleWrite consoleLine, Event.fileOpen l.log_file,
            Event.fileWrite l.log_file msg], s2,
            Outcome.panicked "Logger: I cannot write to the log file.")
        else if level = LogLevel.Error ∧ l.terminate_on_error = true then
          ([Event.consoleWrite consoleLine, Event.fileOpen l.log_file,
            Event.fileWrite l.log_file msg, Event.fileFlush l.log_file,
            Event.procAbort "Logger: Application terminated abnormally."],
            s2, Outcome.panicked "Logger: Application terminated abnormally.")
        else
          ([Event.consoleWrite consoleLine, Event.fileOpen l.log_file,
            Event.fileWrite l.log_file msg, Event.fileFlush l.log_file],
            s2, Outcome.ok (Except.ok ()))

/-- The `Default` implementation for `Logger` in `src/logger.rs`:
`Logger::new("default.log", true)`. -/
def Logger.mkDefault (canCreate : String → Bool) (s : SysState) :
    SysState × Outcome Logger :=
  Logger.new "default.log" true canCreate s

/-- An empty system state used by concrete witnesses. -/
def s0 : SysState :=
  { files := fun _ => none, stdout := "" }

/-- A system state holding one empty file at `"a.log"`. -/
def sA : SysState :=
  { files := fun q => if q = "a.log" then some "" else none, stdout := "" }

/-- A logger targeting `"a.log"` with termination disabled. -/
def lA : Logger :=
  { log_file := "a.log", terminate_on_error := false }

/-- Fault-free I/O for one `log` call. -/
def noFaults : IoFaults :=
  { writeFails := false, flushFails := false }

/-- C7: `to_level_string` is a total, pure function on the four
`LogLevel` variants with exactly the mapping Info to INFO, Debug to
DEBUG, Warning to WARNING, Error to ERROR. -/
theorem to_level_string_table :
    LogLevel.to_level_string LogLevel.Info = "INFO" ∧
    LogLevel.to_level_string LogLevel.Debug = "DEBUG" ∧
    LogLevel.to_level_string LogLevel.Warning = "WARNING" ∧
    LogLevel.to_level_string LogLevel.Error = "ERROR" :=
  ⟨rfl, rfl, rfl, rfl⟩

/-- C9: for every `LogLevel` variant the Display rendering equals
`to_level_string` exactly, with no decoration or padding: both are the
bare uppercase name given by the fixed table. -/
theorem display_eq_to_level_string (l : LogLevel) :
    l.displayString = l.to_level_string ∧
    l.displayString = (match l with
      | LogLevel.Info => "INFO"
      | LogLevel.Debug => "DEBUG"
      | LogLevel.Warning => "WARNING"
      | LogLevel.Error => "ERROR") := by
  cases l <;> exact ⟨rfl, rfl⟩

/-- The formatted record written by `log` to both destinations. -/
def logLine (level : LogLevel) (message : String) : String :=
  "[" ++ level.to_level_string ++ "] " ++ message ++ "\n"

theorem setFile_files_self (s : SysState) (p v : String) :
    (s.setFile p v).files p = some v := by
  simp [SysState.setFile]

theorem setFile_files_other (s : SysState) (p v q : String) (h : q ≠ p) :
    (s.setFile p v).files q = s.files q := by
  simp [SysState.setFile, h]

theorem addStdout_files (s : SysState) (x : String) :
    (s.addStdout x).files = s.files := rfl

/-- Characterization of `Logger.log` when the target file exists and no
write or flush fault is injected: all four I/O steps happen, the file
gains exactly the formatted record, stdout gains the same line, and the
outcome depends only on the termination check. -/
theorem log_success_eq (l : Logger) (level : LogLevel) (message : String)
    (f : IoFaults) (s : SysState) (c : String)
    (hfile : s.files l.log_file = some c)
    (hw : f.writeFails = false) (hfl : f.flushFails = false) :
    Logger.log l level message f s =
      (if level = LogLevel.Error ∧ l.terminate_on_error = true then
        ([Event.consoleWrite (logLine level message), Event.fileOpen l.log_file,
          Event.fileWrite l.log_file (logLine level message), Event.fileFlush l.log_file,
          Event.procAbort "Logger: Application terminated abnormally."],
          (s.addStdout (logLine level message)).setFile l.log_file (c ++ logLine level message),
          Outcome.panicked "Logger: Application terminated abnormally.")
      else
        ([Event.consoleWrite (logLine level message), Event.fileOpen l.log_file,
          Event.fileWrite l.log_file (logLine level message), Event.fileFlush l.log_file],
          (s.addStdout (logLine level message)).setFile l.log_file (c ++ logLine level message),
          Outcome.ok (Except.ok ()))) := by
  unfold Logger.log
  simp only [hfile, hw, hfl, LogLevel.displayString, logLine, Bool.false_eq_true, if_false]

/-- C4: a successful `Logger::new(p, b)` yields a logger whose
`log_file` is `"default.log"` when `p` is empty and `p` otherwise, and
whose `terminate_on_error` is `b`; the resulting `log_file` is never the
empty string. -/
theorem new_resolves_path_and_flag (p : String) (b : Bool)
    (canCreate : String → Bool) (s s' : SysState) (L : Logger)
    (h : Logger.new p b canCreate s = (s', Outcome.ok L)) :
    L.log_file = (if p.isEmpty then "default.log" else p) ∧
    L.terminate_on_error = b ∧
    L.log_file.isEmpty = false := by
  unfold Logger.new at h
  by_cases hc : canCreate (if p.isEmpty then "default.log" else p) = true
  · rw [if_pos hc, Prod.mk.injEq] at h
    obtain ⟨-, h2⟩ := h
    injection h2 with h3
    subst h3
    refine ⟨rfl, rfl, ?_⟩
    by_cases hp : p.isEmpty = true
    · rw [if_pos hp]
      rfl
    · rw [if_neg hp]
      show p.isEmpty = false
      simp only [Bool.not_eq_true] at hp
      exact hp
  · rw [if_neg hc, Prod.mk.injEq] at h
    cases h.2

/-- Witness for C4 at the concrete inputs p equal to the empty string
and b equal to true. -/
theorem new_resolves_path_and_flag_witness :
    (Logger.mk "default.log" true).log_file =
      (if ("" : String).isEmpty then "default.log" else "") ∧
    (Logger.mk "default.log" true).terminate_on_error = true ∧
    (Logger.mk "default.log" true).log_file.isEmpty = false :=
  new_resolves_path_and_flag "" true (fun _ => true) s0
    (s0.setFile "default.log" "") (Logger.mk "default.log" true) rfl

/-- C1: when the file open, write and flush succeed, a `log` call
appends exactly one record to the log file, equal to the level tag in
square brackets, a space, the message byte-for-byte verbatim, and a
newline; every other file is untouched. -/
theorem log_appends_exactly_one_record (l : Logger) (level : LogLevel)
    (message : String) (f : IoFaults) (s : SysState) (c : String)
    (hfile : s.files l.log_file = some c)
    (hw : f.writeFails = false) (hfl : f.flushFails = false) :
    (Logger.log l level message f s).2.1.files l.log_file =
      some (c ++ ("[" ++ level.to_level_string ++ "] " ++ message ++ "\n")) ∧
    ∀ q, q ≠ l.log_file → (Logger.log l level message f s).2.1.files q = s.files q := by
  rw [log_success_eq l level message f s c hfile hw hfl]
  by_cases ht : level = LogLevel.Error ∧ l.terminate_on_error = true
  · rw [if_pos ht]
    exact ⟨setFile_files_self _ _ _, fun q hq =>
      (setFile_files_other _ _ _ _ hq).trans (congrFun (addStdout_files s _) q)⟩
  · rw [if_neg ht]
    exact ⟨setFile_files_self _ _ _, fun q hq =>
      (setFile_files_other _ _ _ _ hq).trans (congrFun (addStdout_files s _) q)⟩

/-- Witness for C1: logging INFO of the message hi into an existing
empty file at a.log produces exactly the record for that message. -/
theorem log_appends_exactly_one_record_witness :
    (Logger.log lA LogLevel.Info "hi" noFaults sA).2.1.files "a.log" =
      some ("" ++ ("[" ++ LogLevel.to_level_string LogLevel.Info ++ "] " ++ "hi" ++ "\n")) :=
  (log_appends_exactly_one_record lA LogLevel.Info "hi" noFaults sA ""
    (by decide) rfl rfl).1

/-- C10: `log` never constructs an `Err` return value: every execution
either returns the success value or panics. -/
theorem log_never_returns_err (l : Logger) (level : LogLevel) (message : String)
    (f : IoFaults) (s : SysState) :
    (Logger.log l level message f s).2.2 = Outcome.ok (Except.ok ()) ∨
    ((Logger.log l level message f s).2.2).isPanicked = true := by
  unfold Logger.log
  cases h : s.files l.log_file with
  | none => simp [h, Outcome.isPanicked]
  | some c =>
    simp only [h]
    split
    · simp [Outcome.isPanicked]
    · split
      · simp [Outcome.isPanicked]
      · split <;> simp [Outcome.isPanicked]

/-- A logger targeting `"b.log"`, a path that does not exist in `sA`. -/
def lB : Logger :=
  { log_file := "b.log", terminate_on_error := false }

/-- C2: under fault-free I/O on an existing file, a `log` call
terminates the process exactly when the level is `Error` and the
logger's `terminate_on_error` flag is set, and any such termination
happens only after both the console write and the file write have
completed; when the flag is clear an `Error`-level call returns the
success value and the message is still written to both destinations. -/
theorem log_terminates_iff_error_and_policy (l : Logger) (level : LogLevel)
    (message : String) (f : IoFaults) (s : SysState) (c : String)
    (hfile : s.files l.log_file = some c)
    (hw : f.writeFails = false) (hfl : f.flushFails = false) :
    (((Logger.log l level message f s).2.2).isPanicked = true ↔
      (level = LogLevel.Error ∧ l.terminate_on_error = true)) ∧
    (Logger.log l level message f s).2.1.files l.log_file =
      some (c ++ logLine level message) ∧
    (Logger.log l level message f s).2.1.stdout = s.stdout ++ logLine level message ∧
    (¬(level = LogLevel.Error ∧ l.terminate_on_error = true) →
      (Logger.log l level message f s).2.2 = Outcome.ok (Except.ok ())) := by
  rw [log_success_eq l level message f s c hfile hw hfl]
  by_cases ht : level = LogLevel.Error ∧ l.terminate_on_error = true
  · rw [if_pos ht]
    exact ⟨by simp [Outcome.isPanicked, ht], setFile_files_self _ _ _, rfl,
      fun hn => absurd ht hn⟩
  · rw [if_neg ht]
    exact ⟨by simp [Outcome.isPanicked, ht], setFile_files_self _ _ _, rfl,
      fun _ => rfl⟩

/-- Witness for C2: an ERROR-level call on a logger with the
termination flag clear returns the success value. -/
theorem log_terminates_iff_error_and_policy_witness :
    (((Logger.log lA LogLevel.Error "e" noFaults sA).2.2).isPanicked = true ↔
      (LogLevel.Error = LogLevel.Error ∧ lA.terminate_on_error = true)) ∧
    (Logger.log lA LogLevel.Error "e" noFaults sA).2.2 = Outcome.ok (Except.ok ()) :=
  ⟨(log_terminates_iff_error_and_policy lA LogLevel.Error "e" noFaults sA ""
      (by decide) rfl rfl).1,
   (log_terminates_iff_error_and_policy lA LogLevel.Error "e" noFaults sA ""
      (by decide) rfl rfl).2.2.2 (by decide)⟩

/-- C5: during `log` the target file is never created: when it does not
exist the open fails and the call panics, and the file still does not
exist afterwards; an injected write or flush failure likewise panics
instead of returning a recoverable error. -/
theorem log_io_failure_is_fatal (l : Logger) (level : LogLevel) (message : String)
    (f : IoFaults) (s : SysState)
    (h : s.files l.log_file = none ∨ f.writeFails = true ∨ f.flushFails = true) :
    ((Logger.log l level message f s).2.2).isPanicked = true ∧
    (s.files l.log_file = none →
      (Logger.log l level message f s).2.1.files l.log_file = none) := by
  unfold Logger.log
  constructor
  · rcases h with h1 | h2 | h3
    · simp [h1, Outcome.isPanicked]
    · cases hs : s.files l.log_file with
      | none => simp [hs, Outcome.isPanicked]
      | some c => simp [hs, h2, Outcome.isPanicked]
    · cases hs : s.files l.log_file with
      | none => simp [hs, Outcome.isPanicked]
      | some c => cases hw : f.writeFails <;>
          simp [hs, hw, h3, Outcome.isPanicked]
  · intro h1
    simp [h1, SysState.addStdout]

/-- Witness for C5: logging to a path with no file panics and leaves
the path without a file. -/
theorem log_io_failure_is_fatal_witness :
    ((Logger.log lB LogLevel.Info "x" noFaults sA).2.2).isPanicked = true ∧
    (Logger.log lB LogLevel.Info "x" noFaults sA).2.1.files "b.log" = none :=
  ⟨(log_io_failure_is_fatal lB LogLevel.Info "x" noFaults sA (Or.inl (by decide))).1,
   (log_io_failure_is_fatal lB LogLevel.Info "x" noFaults sA (Or.inl (by decide))).2
     (by decide)⟩

/-- C6: in every `log` call the trace starts with the console write of
the formatted line, so the console write precedes any file event and is
performed unconditionally (stdout gains the line on every path, even
when the file write fails); a process abort, when present, is the last
event and is preceded by both the file write and the flush. -/
theorem log_event_ordering (l : Logger) (level : LogLevel) (message : String)
    (f : IoFaults) (s : SysState) :
    (∃ rest, (Logger.log l level message f s).1 =
      Event.consoleWrite (logLine level message) :: rest) ∧
    (Logger.log l level message f s).2.1.stdout = s.stdout ++ logLine level message ∧
    (∀ m, Event.procAbort m ∈ (Logger.log l level message f s).1 →
      ∃ pre, (Logger.log l level message f s).1 = pre ++ [Event.procAbort m] ∧
        Event.fileWrite l.log_file (logLine level message) ∈ pre ∧
        Event.fileFlush l.log_file ∈ pre) := by
  unfold Logger.log
  cases hs : s.files l.log_file with
  | none =>
    simp only [hs]
    refine ⟨⟨[], rfl⟩, rfl, ?_⟩
    intro m hm
    simp at hm
  | some c =>
    simp only [hs]
    by_cases hw : f.writeFails = true
    · rw [if_pos hw]
      refine ⟨⟨[Event.fileOpen l.log_file], rfl⟩, rfl, ?_⟩
      intro m hm
      simp at hm
    · rw [if_neg hw]
      by_cases hfl : f.flushFails = true
      · rw [if_pos hfl]
        refine ⟨⟨_, rfl⟩, rfl, ?_⟩
        intro m hm
        simp at hm
      · rw [if_neg hfl]
        by_cases ht : level = LogLevel.Error ∧ l.terminate_on_error = true
        · rw [if_pos ht]
          refine ⟨⟨_, rfl⟩, rfl, ?_⟩
          intro m hm
          simp only [List.mem_cons, List.not_mem_nil, or_false] at hm
          rcases hm with hm | hm | hm | hm | hm
          · cases hm
          · cases hm
          · cases hm
          · cases hm
          · injection hm with hm2
            subst hm2
            exact ⟨[Event.consoleWrite (logLine level message),
              Event.fileOpen l.log_file,
              Event.fileWrite l.log_file (logLine level message),
              Event.fileFlush l.log_file], rfl, by simp, by simp⟩
        · rw [if_neg ht]
          refine ⟨⟨_, rfl⟩, rfl, ?_⟩
          intro m hm
          simp at hm

/-- C3 counterexample: a `log` call at level Info on a logger whose
target file is missing panics, although the level is not Error and it
is not a construction failure; so the process terminates abnormally in
a situation that is neither of the claim's two. -/
theorem process_exit_two_situations_cex :
    ((Logger.log lB LogLevel.Info "x" noFaults sA).2.2).isPanicked = true ∧
    ¬(LogLevel.Info = LogLevel.Error ∧ lB.terminate_on_error = true) := by
  decide

/-- C3 (amended): the process terminates abnormally in exactly three
situations: construction cannot create the target file; a `log` call's
file open, write, or flush fails; or an Error-level message is logged
while `terminate_on_error` is true. No other path of `new` or `log`
panics. -/
theorem process_exit_contract_amended (p : String) (b : Bool)
    (canCreate : String → Bool) (l : Logger) (level : LogLevel)
    (message : String) (f : IoFaults) (s s2 : SysState) :
    (((Logger.new p b canCreate s).2).isPanicked = true ↔
      canCreate (if p.isEmpty then "default.log" else p) = false) ∧
    (((Logger.log l level message f s2).2.2).isPanicked = true ↔
      (s2.files l.log_file = none ∨ f.writeFails = true ∨ f.flushFails = true ∨
        (level = LogLevel.Error ∧ l.terminate_on_error = true))) := by
  constructor
  · unfold Logger.new
    by_cases hc : canCreate (if p.isEmpty then "default.log" else p) = true
    · rw [if_pos hc]
      simp [Outcome.isPanicked, hc]
    · rw [if_neg hc]
      simp only [Bool.not_eq_true] at hc
      simp [Outcome.isPanicked, hc]
  · unfold Logger.log
    cases hs : s2.files l.log_file with
    | none => simp [hs, Outcome.isPanicked]
    | some c =>
      simp only [hs]
      by_cases hw : f.writeFails = true
      · rw [if_pos hw]
        simp [Outcome.isPanicked, hw]
      · rw [if_neg hw]
        by_cases hfl : f.flushFails = true
        · rw [if_pos hfl]
          simp [Outcome.isPanicked, hfl]
        · rw [if_neg hfl]
          by_cases ht : level = LogLevel.Error ∧ l.terminate_on_error = true
          · rw [if_pos ht]
            simp [Outcome.isPanicked, ht]
          · rw [if_neg ht]
            simp [Outcome.isPanicked, hw, hfl, ht]

/-- When the termination flag is set, an Error-level `log` call panics
on every path: each I/O failure panics, and the fault-free path reaches
the termination check and panics there. -/
theorem log_error_always_panics (l : Logger) (message : String)
    (f : IoFaults) (s : SysState) (hterm : l.terminate_on_error = true) :
    ((Logger.log l LogLevel.Error message f s).2.2).isPanicked = true := by
  unfold Logger.log
  cases hs : s.files l.log_file with
  | none => simp [hs, Outcome.isPanicked]
  | some c =>
    simp only [hs]
    by_cases hw : f.writeFails = true
    · rw [if_pos hw]
      rfl
    · rw [if_neg hw]
      by_cases hfl : f.flushFails = true
      · rw [if_pos hfl]
        rfl
      · rw [if_neg hfl]
        simp [hterm, Outcome.isPanicked]

/-- C8: default construction is the call `new("default.log", true)`:
any logger it successfully returns has `log_file` equal to
`"default.log"` and `terminate_on_error` true, and such a logger panics
on every Error-level `log` call. -/
theorem default_equiv_new (canCreate : String → Bool) (s s' : SysState) (L : Logger)
    (h : Logger.mkDefault canCreate s = (s', Outcome.ok L)) :
    Logger.mkDefault canCreate s = Logger.new "default.log" true canCreate s ∧
    L.log_file = "default.log" ∧ L.terminate_on_error = true ∧
    ∀ (m : String) (f : IoFaults) (s2 : SysState),
      ((Logger.log L LogLevel.Error m f s2).2.2).isPanicked = true := by
  refine ⟨rfl, ?_⟩
  unfold Logger.mkDefault Logger.new at h
  have hde : ¬(("default.log" : String).isEmpty = true) := by decide
  rw [if_neg hde] at h
  by_cases hc : canCreate "default.log" = true
  · rw [if_pos hc, Prod.mk.injEq] at h
    obtain ⟨-, h2⟩ := h
    injection h2 with h3
    subst h3
    exact ⟨rfl, rfl, fun m f s2 => log_error_always_panics _ m f s2 rfl⟩
  · rw [if_neg hc, Prod.mk.injEq] at h
    cases h.2

/-- Witness for C8 with a fully permissive file system: the default
logger is built at `"default.log"` with the flag set, and an
Error-level call on it panics. -/
theorem default_equiv_new_witness :
    Logger.mkDefault (fun _ => true) s0 = Logger.new "default.log" true (fun _ => true) s0 ∧
    (Logger.mk "default.log" true).log_file = "default.log" ∧
    ((Logger.log (Logger.mk "default.log" true) LogLevel.Error "x" noFaults s0).2.2).isPanicked = true :=
  ⟨(default_equiv_new (fun _ => true) s0 (s0.setFile "default.log" "")
      (Logger.mk "default.log" true) rfl).1,
   (default_equiv_new (fun _ => true) s0 (s0.setFile "default.log" "")
      (Logger.mk "default.log" true) rfl).2.1,
   (default_equiv_new (fun _ => true) s0 (s0.setFile "default.log" "")
      (Logger.mk "default.log" true) rfl).2.2.2 "x" noFaults s0⟩
